import Mathlib

/-!
Verification of the configuration-selection and checkout-link-resolution flow
of the game-server hosting front-end.  The relevant code is the
GameConfigurator React component (fetchJSON, the selection state and its
handlers, canSubmit, buildAndRedirect) and the GamesGrid utility module
(fetchJSON, transformGameConfig, fetchGameConfig).  JavaScript values are
embedded as a JSON-like inductive with explicit JS truthiness, property
access that throws a TypeError on null/undefined, and fallible computations
in the Except monad (a thrown JS error is an Except.error).
-/

namespace Aleforge

/-- JSON / JavaScript values as manipulated by the front-end code.
undefined stands for the JavaScript undefined value (the result of reading a
missing property). -/
inductive Json where
  | null
  | undefined
  | bool (b : Bool)
  | num (n : Int)
  | str (s : String)
  | arr (elems : List Json)
  | obj (fields : List (String × Json))

/-- JavaScript truthiness of a value: null, undefined, false, 0 and the
empty string are falsy, every array and object is truthy. -/
def Json.truthy : Json → Bool
  | .null => false
  | .undefined => false
  | .bool b => b
  | .num n => n != 0
  | .str s => s != ""
  | .arr _ => true
  | .obj _ => true

/-- Property lookup in an object field list (first binding wins). -/
def lookupField : List (String × Json) → String → Option Json
  | [], _ => none
  | (k, v) :: rest, key => if k == key then some v else lookupField rest key

/-- Total JS property read: a missing property, or a property of a
primitive (string, number, boolean) or of an array, reads as undefined. -/
def jsGet (j : Json) (key : String) : Json :=
  match j with
  | .obj fields =>
    match lookupField fields key with
    | some v => v
    | none => .undefined
  | _ => .undefined

/-- A thrown JavaScript error: either an explicit new Error(msg) or the
TypeError raised by reading a property of null/undefined. -/
inductive JsError where
  | error (msg : String)
  | typeError (msg : String)

/-- JS property access as an effect: reading a property of null or
undefined throws a TypeError, any other read yields jsGet. -/
def Json.getE (j : Json) (key : String) : Except JsError Json :=
  match j with
  | .null => .error (.typeError ("Cannot read properties of null (reading " ++ key ++ ")"))
  | .undefined => .error (.typeError ("Cannot read properties of undefined (reading " ++ key ++ ")"))
  | _ => .ok (jsGet j key)

/-- JS logical or on values: a || b keeps a when it is truthy. -/
def jsOr (a b : Json) : Json := if a.truthy then a else b

/-- The observable outcome of await fetch(url) followed by res.json():
ok and status mirror the Response fields, body is the parsed JSON
document, with none standing for a body that fails to parse. -/
structure HttpResponse where
  ok : Bool
  status : Nat
  body : Option Json

/-- fetchJSON from GameConfigurator.tsx / GamesGrid.tsx:
throws on a non-success status (res.ok false), parses the body, and
unwraps the envelope with the expression
  const data = response.ok ? response.data : response. -/
def fetchJSON (path : String) (res : HttpResponse) : Except JsError Json :=
  if res.ok = false then
    .error (.error ("Failed to fetch " ++ path ++ ": " ++ toString res.status))
  else
    match res.body with
    | none => .error (.error "Unexpected end of JSON input")
    | some response =>
      match response.getE "ok" with
      | .error e => .error e
      | .ok okField =>
        if okField.truthy then response.getE "data" else .ok response

/-- A wrapped envelope whose ok field is the boolean false. -/
def envC2 : Json := .obj [("ok", .bool false), ("data", .str "payload")]

/-- Claim C2, counterexample: the parsed body envC2 has a boolean ok field
(ok is the boolean false), yet fetchJSON returns the whole parsed body and
not its data member, contradicting the claim that the data member is
returned exactly when a boolean ok field is present. -/
theorem C2_fetchJSON_counterexample :
    jsGet envC2 "ok" = .bool false ∧
    fetchJSON "/x" { ok := true, status := 200, body := some envC2 } = .ok envC2 ∧
    jsGet envC2 "data" = .str "payload" ∧
    envC2 ≠ .str "payload" := by
  refine ⟨rfl, rfl, rfl, ?_⟩
  intro h
  exact Json.noConfusion h

/-- Claim C2, amended: for every successfully parsed body, fetchJSON
returns the data member exactly when the ok field of the envelope is
truthy (so an envelope with ok equal to false is returned unchanged,
boolean field or not); on a non-success HTTP status it fails with an
error carrying the requested path and the status code. -/
theorem C2_fetchJSON_amended (path : String) (res : HttpResponse) (j okField : Json)
    (hok : res.ok = true) (hbody : res.body = some j)
    (henv : j.getE "ok" = .ok okField) :
    fetchJSON path res = (if okField.truthy then j.getE "data" else .ok j) ∧
    fetchJSON path { res with ok := false } =
      .error (.error ("Failed to fetch " ++ path ++ ": " ++ toString res.status)) := by
  constructor
  · simp [fetchJSON, hok, hbody, henv]
  · simp [fetchJSON]

/-- An envelope with a truthy ok field, used to instantiate the amended C2. -/
def envC2T : Json := .obj [("ok", .bool true), ("data", .num 5)]

/-- Witness for the amended C2 at a concrete wrapped response. -/
theorem C2_fetchJSON_amended_witness :
    fetchJSON "/games" { ok := true, status := 200, body := some envC2T } =
      (if (Json.bool true).truthy then envC2T.getE "data" else .ok envC2T) ∧
    fetchJSON "/games" { ok := false, status := 200, body := some envC2T } =
      .error (.error ("Failed to fetch " ++ "/games" ++ ": " ++ toString (200 : Nat))) :=
  C2_fetchJSON_amended "/games" { ok := true, status := 200, body := some envC2T }
    envC2T (Json.bool true) rfl rfl rfl

/-- Reading a property never throws on a value that is neither null nor
undefined. -/
theorem getE_not_null (j : Json) (h0 : j ≠ .null) (h1 : j ≠ .undefined) (key : String) :
    j.getE key = .ok (jsGet j key) := by
  cases j <;> simp_all [Json.getE]

/-- The defensive cart-link access from buildAndRedirect:
  const cartLink = redirectUrl[cart-link] || redirectUrl[cart_link]
    || (typeof redirectUrl === string ? redirectUrl : null);
  if (!cartLink) throw new Error(No cart link found on API response.); -/
def cartExtract (redirectUrl : Json) : Except JsError Json :=
  match redirectUrl.getE "cart-link", redirectUrl.getE "cart_link" with
  | .ok c1, .ok c2 =>
    let stringSelf := match redirectUrl with
      | .str s => Json.str s
      | _ => Json.null
    let cartLink := jsOr c1 (jsOr c2 stringSelf)
    if cartLink.truthy = false then .error (.error "No cart link found on API response.")
    else .ok cartLink
  | .error e, _ => .error e
  | .ok _, .error e => .error e

/-- The redirect-URL extraction from buildAndRedirect, applied to the
unwrapped payload:
  const redirectUrl = data.link || data.url || data || null;
  if (!redirectUrl) throw new Error(No checkout link returned.);
followed by the cart-link access. -/
def resolveRedirect (data : Json) : Except JsError Json :=
  match data.getE "link", data.getE "url" with
  | .ok l, .ok u =>
    let redirectUrl := jsOr l (jsOr u (jsOr data .null))
    if redirectUrl.truthy = false then .error (.error "No checkout link returned.")
    else cartExtract redirectUrl
  | .error e, _ => .error e
  | .ok _, .error e => .error e

/-- The checkout response handling of buildAndRedirect after the request
is issued: throw on a non-success status, parse, unwrap the ok/data
envelope, then extract the redirect URL. -/
def checkoutResolve (res : HttpResponse) : Except JsError Json :=
  if res.ok = false then
    .error (.error ("buildlink failed: " ++ toString res.status))
  else
    match res.body with
    | none => .error (.error "Unexpected end of JSON input")
    | some response =>
      match response.getE "ok" with
      | .error e => .error e
      | .ok okField =>
        match (if okField.truthy then response.getE "data" else .ok response) with
        | .error e => .error e
        | .ok data => resolveRedirect data

/-- First stage of the extraction chain as the claim words it: take the
link field if usable, else the url field, else the whole payload. -/
def specResolved (data : Json) : Json :=
  if (jsGet data "link").truthy then jsGet data "link"
  else if (jsGet data "url").truthy then jsGet data "url"
  else data

/-- Second stage as the claim words it: an object is searched for a
cart-link field then a cart_link field, a string is accepted directly,
anything else yields no usable URL. -/
def specCart : Json → Option Json
  | .obj fields =>
    if (jsGet (.obj fields) "cart-link").truthy then some (jsGet (.obj fields) "cart-link")
    else if (jsGet (.obj fields) "cart_link").truthy then some (jsGet (.obj fields) "cart_link")
    else none
  | .str s => if s == "" then none else some (.str s)
  | _ => none

/-- The whole extraction chain as the claim words it; none models failing
with a CheckoutError because no usable URL remains. -/
def specExtractRedirect (data : Json) : Option Json :=
  if (specResolved data).truthy = false then none
  else specCart (specResolved data)

/-- Forgets which error a fallible extraction produced. -/
def toOpt : Except JsError Json → Option Json
  | .ok v => some v
  | .error _ => none

/-- Recognizes exactly the two CheckoutError failures thrown by the
redirect extraction chain. -/
def isCheckoutFail : Except JsError Json → Bool
  | .error (.error msg) =>
    msg == "No checkout link returned." || msg == "No cart link found on API response."
  | _ => false

theorem truthy_null : Json.null.truthy = false := rfl

theorem truthy_undef : Json.undefined.truthy = false := rfl

theorem truthy_str (s : String) : (Json.str s).truthy = (s != "") := rfl

theorem cartExtract_spec (r : Json) (hr : r.truthy = true) :
    toOpt (cartExtract r) = specCart r ∧
    isCheckoutFail (cartExtract r) = (specCart r).isNone := by
  cases r with
  | null => exact absurd hr (by decide)
  | undefined => exact absurd hr (by decide)
  | bool b =>
    cases b with
    | false => exact absurd hr (by decide)
    | true => exact ⟨rfl, by decide⟩
  | num n => exact ⟨rfl, rfl⟩
  | arr elems => exact ⟨rfl, rfl⟩
  | str s =>
    have hs3 : (s != "") = true := hr
    have hs4 : (s == "") = false := by simpa [bne] using hs3
    constructor
    · simp [cartExtract, Json.getE, jsGet, jsOr, truthy_undef, truthy_str,
        specCart, toOpt, hs3, hs4]
    · simp [cartExtract, Json.getE, jsGet, jsOr, truthy_undef, truthy_str,
        specCart, isCheckoutFail, hs3, hs4]
  | obj fields =>
    by_cases h1 : (jsGet (.obj fields) "cart-link").truthy = true
    · constructor <;>
        simp [cartExtract, Json.getE, jsOr, specCart, toOpt, isCheckoutFail, h1]
    · simp only [Bool.not_eq_true] at h1
      by_cases h2 : (jsGet (.obj fields) "cart_link").truthy = true
      · constructor <;>
          simp [cartExtract, Json.getE, jsOr, specCart, toOpt, isCheckoutFail, h1, h2]
      · simp only [Bool.not_eq_true] at h2
        constructor <;>
          simp [cartExtract, Json.getE, jsOr, specCart, toOpt, isCheckoutFail, h1, h2,
            truthy_null]

theorem resolveRedirect_spec (data : Json) (h0 : data ≠ .null) (h1 : data ≠ .undefined) :
    toOpt (resolveRedirect data) = specExtractRedirect data ∧
    isCheckoutFail (resolveRedirect data) = (specExtractRedirect data).isNone := by
  have hget : ∀ key, data.getE key = .ok (jsGet data key) :=
    fun key => getE_not_null data h0 h1 key
  by_cases hl : (jsGet data "link").truthy = true
  · have hcode : resolveRedirect data = cartExtract (jsGet data "link") := by
      simp [resolveRedirect, hget, jsOr, hl]
    have hspec : specExtractRedirect data = specCart (jsGet data "link") := by
      simp [specExtractRedirect, specResolved, hl]
    rw [hcode, hspec]
    exact cartExtract_spec _ hl
  · simp only [Bool.not_eq_true] at hl
    by_cases hu : (jsGet data "url").truthy = true
    · have hcode : resolveRedirect data = cartExtract (jsGet data "url") := by
        simp [resolveRedirect, hget, jsOr, hl, hu]
      have hspec : specExtractRedirect data = specCart (jsGet data "url") := by
        simp [specExtractRedirect, specResolved, hl, hu]
      rw [hcode, hspec]
      exact cartExtract_spec _ hu
    · simp only [Bool.not_eq_true] at hu
      by_cases hd : data.truthy = true
      · have hcode : resolveRedirect data = cartExtract data := by
          simp [resolveRedirect, hget, jsOr, hl, hu, hd]
        have hspec : specExtractRedirect data = specCart data := by
          simp [specExtractRedirect, specResolved, hl, hu, hd]
        rw [hcode, hspec]
        exact cartExtract_spec _ hd
      · simp only [Bool.not_eq_true] at hd
        have hcode : resolveRedirect data = .error (.error "No checkout link returned.") := by
          simp [resolveRedirect, hget, jsOr, hl, hu, hd, truthy_null]
        have hspec : specExtractRedirect data = none := by
          simp [specExtractRedirect, specResolved, hl, hu, hd]
        rw [hcode, hspec]
        exact ⟨rfl, by decide⟩

/-- The checkout response of the spec scenario:
{ok: true, data: {link: {cart-link: https://pay.example/abc}}}. -/
def respC1 : Json :=
  .obj [("ok", .bool true),
        ("data", .obj [("link", .obj [("cart-link", .str "https://pay.example/abc")])])]

/-- Claim C1: the checkout resolver extracts the redirect URL by the
documented chain (link, then url, then the whole unwrapped payload; an
object so resolved is searched for cart-link then cart_link, a string is
accepted directly) and fails with a CheckoutError exactly when no usable
URL remains; on the scenario response {ok: true, data: {link: {cart-link:
https://pay.example/abc}}} the resolved redirect is
https://pay.example/abc. -/
theorem C1_redirect_extraction (data : Json) (h0 : data ≠ .null) (h1 : data ≠ .undefined) :
    toOpt (resolveRedirect data) = specExtractRedirect data ∧
    isCheckoutFail (resolveRedirect data) = (specExtractRedirect data).isNone ∧
    checkoutResolve { ok := true, status := 200, body := some respC1 } =
      .ok (.str "https://pay.example/abc") := by
  obtain ⟨a, b⟩ := resolveRedirect_spec data h0 h1
  exact ⟨a, b, rfl⟩

/-- A concrete unwrapped payload used to instantiate C1. -/
def dataC1w : Json := .obj [("url", .str "Y")]

/-- Witness for C1 at a concrete payload whose url field carries the URL. -/
theorem C1_redirect_extraction_witness :
    dataC1w ≠ .null ∧ dataC1w ≠ .undefined ∧
    (toOpt (resolveRedirect dataC1w) = specExtractRedirect dataC1w ∧
     isCheckoutFail (resolveRedirect dataC1w) = (specExtractRedirect dataC1w).isNone ∧
     checkoutResolve { ok := true, status := 200, body := some respC1 } =
       .ok (.str "https://pay.example/abc")) :=
  ⟨fun h => Json.noConfusion h, fun h => Json.noConfusion h,
   C1_redirect_extraction dataC1w (fun h => Json.noConfusion h) (fun h => Json.noConfusion h)⟩

/-! ## Selection state (GameConfigurator component) -/

/-- A loaded game record, as used by the selection logic.  The optional
image and serverConfig fields are presentation pass-through data
never read by the selection or validation code and are omitted here. -/
structure GameInfo where
  id : String
  name : String
  minPlayers : Int
  maxPlayers : Int
  minMods : Int
  maxMods : Int
deriving DecidableEq

/-- The component state relevant to the selection and checkout claims:
games mirrors the games useState, gameId / players / locationId / mods /
modDraft mirror the selection useStates (players none models the empty
string value), and building mirrors the busy flag. -/
structure ConfigState where
  games : List GameInfo
  gameId : String
  players : Option Int
  locationId : String
  mods : List String
  modDraft : String
  building : Bool
deriving DecidableEq

/-- currentGame = games.find(g => g.id === gameId) || games[0] || null. -/
def currentGame (s : ConfigState) : Option GameInfo :=
  match s.games.find? (fun g => g.id == s.gameId) with
  | some g => some g
  | none => s.games.head?

/-- setPlayers as invoked by the players slider onChange handler: the raw
state setter, storing the given number unchanged. -/
def setPlayers (s : ConfigState) (p : Int) : ConfigState :=
  { s with players := some p }

/-- The useEffect keyed on gameId that normalizes players and mods:
  const p = typeof players === number ? players : currentGame.minPlayers;
  const bounded = Math.max(minPlayers, Math.min(maxPlayers, p));
  setPlayers(bounded);
  if (maxMods === 0) { setMods([]); setModDraft(); }
  else if (mods.length > maxMods) { setMods(mods.slice(0, maxMods)); } -/
def normalizeForGame (s : ConfigState) : ConfigState :=
  match currentGame s with
  | none => s
  | some g =>
    let p := match s.players with
      | some p => p
      | none => g.minPlayers
    let bounded := max g.minPlayers (min g.maxPlayers p)
    let s1 := { s with players := some bounded }
    if g.maxMods == 0 then { s1 with mods := [], modDraft := "" }
    else if (s1.mods.length : Int) > g.maxMods then
      { s1 with mods := s1.mods.take g.maxMods.toNat }
    else s1

/-- Switching the selected game: setGameId followed by the gameId-keyed
normalization effect. -/
def setGame (s : ConfigState) (gid : String) : ConfigState :=
  normalizeForGame { s with gameId := gid }

/-- addMod handler:
  if (!currentGame) return;
  const name = modDraft.trim();
  if (!name) return;
  if (mods.includes(name)) return;
  if (mods.length >= currentGame.maxMods) return;
  setMods(prev => [...prev, name]); setModDraft(); -/
def addMod (s : ConfigState) : ConfigState :=
  match currentGame s with
  | none => s
  | some g =>
    let name := s.modDraft.trim
    if name == "" then s
    else if s.mods.contains name then s
    else if (s.mods.length : Int) ≥ g.maxMods then s
    else { s with mods := s.mods ++ [name], modDraft := "" }

/-- addMod invoked with a given draft text, modelling addMod(name): the
user types name into the mod draft box and presses add. -/
def addModNamed (s : ConfigState) (name : String) : ConfigState :=
  addMod { s with modDraft := name }

/-- modsSupported = (currentGame?.maxMods ?? 0) > 0. -/
def modsSupported (s : ConfigState) : Bool :=
  match currentGame s with
  | some g => g.maxMods > 0
  | none => false

/-- The derived canSubmit predicate, translated check for check. -/
def canSubmit (s : ConfigState) : Bool :=
  match currentGame s with
  | none => false
  | some g =>
    if s.gameId == "" then false
    else if s.locationId == "" then false
    else
      match s.players with
      | none => false
      | some p =>
        if p < g.minPlayers then false
        else if p > g.maxPlayers then false
        else if modsSupported s then
          if (s.mods.length : Int) < g.minMods then false
          else if (s.mods.length : Int) > g.maxMods then false
          else true
        else if s.mods.length > 0 then false
        else true

/-! ## Checkout entry (buildAndRedirect validation prologue and query) -/

/-- The field named by a validation alert in buildAndRedirect. -/
inductive VField where
  | game
  | players
  | location
  | mods
deriving DecidableEq

/-- The URLSearchParams sent to the buildlink endpoint. -/
structure CheckoutQuery where
  handler : String
  game : String
  players : String
  location : String
  mods : String
deriving DecidableEq

/-- What the entry of buildAndRedirect does before any network traffic:
either it stops with a validation alert naming a field, or it reaches the
fetch and issues the checkout request with the given query. -/
inductive BuildStep where
  | validationError (f : VField) (msg : String)
  | request (q : CheckoutQuery)
deriving DecidableEq

/-- The validation prologue and query construction of buildAndRedirect,
translated check for check (note that !players also rejects a player
count of 0, and that the mod-count checks run only when mods are
supported). -/
def buildAttempt (s : ConfigState) : BuildStep :=
  match currentGame s with
  | none => .validationError .game "Please select a game"
  | some g =>
    match s.players with
    | none => .validationError .players "Please select the number of players"
    | some p =>
      if p == 0 then .validationError .players "Please select the number of players"
      else if p < g.minPlayers || p > g.maxPlayers then
        .validationError .players
          ("Players must be between " ++ toString g.minPlayers ++ " and " ++ toString g.maxPlayers)
      else if s.locationId == "" then .validationError .location "Please select a location"
      else if g.maxMods > 0 && (s.mods.length : Int) < g.minMods then
        .validationError .mods ("Minimum " ++ toString g.minMods ++ " mods required")
      else if g.maxMods > 0 && (s.mods.length : Int) > g.maxMods then
        .validationError .mods ("Maximum " ++ toString g.maxMods ++ " mods allowed")
      else
        .request
          { handler := "buildlink", game := g.name, players := toString p,
            location := s.locationId, mods := toString s.mods.length }

/-- One invocation of the checkout action up to the point the request is
issued: on a validation failure the state is unchanged and no request
goes out; otherwise setBuilding(true) runs and the fetch is issued. -/
def startCheckout (s : ConfigState) : ConfigState × Option CheckoutQuery :=
  match buildAttempt s with
  | .validationError _ _ => (s, none)
  | .request q => ({ s with building := true }, some q)

/-! ## Claims about the selection state -/

/-- The single game of the C3 scenario: bounds [2, 20], no mods. -/
def gameC3 : GameInfo :=
  { id := "g", name := "G", minPlayers := 2, maxPlayers := 20, minMods := 0, maxMods := 0 }

/-- A loaded state selecting gameC3. -/
def cs3 : ConfigState :=
  { games := [gameC3], gameId := "g", players := some 2, locationId := "eu",
    mods := [], modDraft := "", building := false }

/-- Claim C3, counterexample: with the game bounds [2, 20] loaded,
setPlayers 999 reads back as 999, not as the clamped value 20; the slider
onChange handler stores the raw number and the clamping effect only runs
when gameId changes. -/
theorem C3_setPlayers_counterexample :
    currentGame cs3 = some gameC3 ∧
    (setPlayers cs3 999).players = some 999 ∧
    max gameC3.minPlayers (min gameC3.maxPlayers 999) = 20 ∧
    (setPlayers cs3 999).players ≠ some (max gameC3.minPlayers (min gameC3.maxPlayers 999)) := by
  refine ⟨rfl, rfl, by decide, by decide⟩

/-- Claim C3, amended: setPlayers(p) followed by read-back yields p
itself, unclamped, and leaves the loaded games, the selected game and the
mod list untouched; the clamp into [minPlayers, maxPlayers] happens only
in the gameId-keyed normalization (see C4), not in setPlayers. -/
theorem C3_setPlayers_amended (s : ConfigState) (p : Int) :
    (setPlayers s p).players = some p ∧
    (setPlayers s p).games = s.games ∧
    (setPlayers s p).gameId = s.gameId ∧
    (setPlayers s p).mods = s.mods :=
  ⟨rfl, rfl, rfl, rfl⟩

/-- Claim C4: switching the selected game clamps players into the new
game's bounds (and the stored value always lands inside the bounds); a
new game with maxMods = 0 always empties the mod list; a mod list longer
than the new maxMods is truncated to its first maxMods elements. -/
theorem C4_setGame (s : ConfigState) (gid : String) (g : GameInfo)
    (hg : currentGame { s with gameId := gid } = some g)
    (hrange : g.minPlayers ≤ g.maxPlayers) (_hm : 0 ≤ g.maxMods) :
    (∀ p, s.players = some p →
      (setGame s gid).players = some (max g.minPlayers (min g.maxPlayers p))) ∧
    (∃ q, (setGame s gid).players = some q ∧ g.minPlayers ≤ q ∧ q ≤ g.maxPlayers) ∧
    (g.maxMods = 0 → (setGame s gid).mods = []) ∧
    ((s.mods.length : Int) > g.maxMods → (setGame s gid).mods = s.mods.take g.maxMods.toNat) := by
  have hplayers : (setGame s gid).players =
      some (max g.minPlayers (min g.maxPlayers (s.players.getD g.minPlayers))) := by
    unfold setGame normalizeForGame
    rw [hg]
    cases hsp : s.players <;>
      by_cases hz : g.maxMods = 0 <;>
        by_cases hlen : ((s.mods.length : Int) > g.maxMods) <;>
          simp [hsp, hz, hlen]
  have hmods : (setGame s gid).mods =
      (if g.maxMods = 0 then []
       else if (s.mods.length : Int) > g.maxMods then s.mods.take g.maxMods.toNat
       else s.mods) := by
    unfold setGame normalizeForGame
    rw [hg]
    by_cases hz : g.maxMods = 0 <;>
      by_cases hlen : ((s.mods.length : Int) > g.maxMods) <;>
        simp [hz, hlen]
  refine ⟨?_, ?_, ?_, ?_⟩
  · intro p hp2
    rw [hplayers, hp2]
    rfl
  · refine ⟨max g.minPlayers (min g.maxPlayers (s.players.getD g.minPlayers)), hplayers, ?_, ?_⟩
    · exact le_max_left _ _
    · exact max_le hrange (min_le_left _ _)
  · intro hz
    rw [hmods, if_pos hz]
  · intro hlen
    rw [hmods]
    by_cases hz : g.maxMods = 0
    · rw [if_pos hz, hz]
      simp
    · rw [if_neg hz, if_pos hlen]

/-- A game supporting up to three mods, used to instantiate C4 and C5. -/
def gameC4 : GameInfo :=
  { id := "h", name := "H", minPlayers := 1, maxPlayers := 8, minMods := 0, maxMods := 3 }

/-- A state about to switch to gameC4 while holding five mods. -/
def cs4 : ConfigState :=
  { games := [gameC3, gameC4], gameId := "g", players := some 30, locationId := "eu",
    mods := ["a", "b", "c", "d", "e"], modDraft := "", building := false }

/-- Witness for C4: switching cs4 to gameC4 clamps players 30 down to 8
and truncates the five mods to the first three. -/
theorem C4_setGame_witness :
    currentGame { cs4 with gameId := "h" } = some gameC4 ∧
    gameC4.minPlayers ≤ gameC4.maxPlayers ∧ (0 : Int) ≤ gameC4.maxMods ∧
    ((∀ p, cs4.players = some p →
      (setGame cs4 "h").players = some (max gameC4.minPlayers (min gameC4.maxPlayers p))) ∧
    (∃ q, (setGame cs4 "h").players = some q ∧
      gameC4.minPlayers ≤ q ∧ q ≤ gameC4.maxPlayers) ∧
    (gameC4.maxMods = 0 → (setGame cs4 "h").mods = []) ∧
    ((cs4.mods.length : Int) > gameC4.maxMods →
      (setGame cs4 "h").mods = cs4.mods.take gameC4.maxMods.toNat)) :=
  ⟨rfl, by decide, by decide,
   C4_setGame cs4 "h" gameC4 rfl (by decide) (by decide)⟩

/-- Claim C5: addMod(name) is a silent no-op when the trimmed name is
blank, when it is already present, or when the mod list already has
maxMods entries (the handler in fact no-ops at or beyond maxMods);
otherwise it appends the trimmed name at the end; and adding the same
name twice changes the mod list only once. -/
theorem C5_addMod (s : ConfigState) (name : String) (g : GameInfo)
    (hg : currentGame s = some g) :
    (name.trim = "" → (addModNamed s name).mods = s.mods) ∧
    (s.mods.contains name.trim = true → (addModNamed s name).mods = s.mods) ∧
    (g.maxMods ≤ (s.mods.length : Int) → (addModNamed s name).mods = s.mods) ∧
    (name.trim ≠ "" → s.mods.contains name.trim = false →
      (s.mods.length : Int) < g.maxMods →
      (addModNamed s name).mods = s.mods ++ [name.trim]) ∧
    (addModNamed (addModNamed s name) name).mods = (addModNamed s name).mods := by
  have hg2 : currentGame { s with modDraft := name } = some g := hg
  have hstep : ∀ t : ConfigState, currentGame { t with modDraft := name } = some g →
      addModNamed t name =
        (if name.trim = "" then { t with modDraft := name }
         else if name.trim ∈ t.mods then { t with modDraft := name }
         else if g.maxMods ≤ (t.mods.length : Int) then { t with modDraft := name }
         else { t with mods := t.mods ++ [name.trim], modDraft := "" }) := by
    intro t ht
    unfold addModNamed addMod
    rw [ht]
    by_cases a1 : name.trim = "" <;> by_cases a2 : name.trim ∈ t.mods <;>
      by_cases a3 : g.maxMods ≤ (t.mods.length : Int) <;>
        simp [a1, a2, a3]
  refine ⟨?_, ?_, ?_, ?_, ?_⟩
  · intro h
    rw [hstep s hg2]
    simp [h]
  · intro h
    have hmem : name.trim ∈ s.mods := by simpa using h
    rw [hstep s hg2]
    by_cases h1 : name.trim = "" <;> simp [h1, hmem]
  · intro h
    rw [hstep s hg2]
    by_cases h1 : name.trim = "" <;> by_cases hmem : name.trim ∈ s.mods <;>
      simp [h1, hmem, h]
  · intro h1 h2 h3
    have hnm : name.trim ∉ s.mods := by simpa using h2
    rw [hstep s hg2]
    simp [h1, hnm, not_le.mpr h3]
  · by_cases h1 : name.trim = ""
    · have e1 : addModNamed s name = { s with modDraft := name } := by
        rw [hstep s hg2]
        simp [h1]
      rw [e1, hstep { s with modDraft := name } hg]
      simp [h1]
    · by_cases hmem : name.trim ∈ s.mods
      · have e1 : addModNamed s name = { s with modDraft := name } := by
          rw [hstep s hg2]
          simp [h1, hmem]
        rw [e1, hstep { s with modDraft := name } hg]
        simp [h1, hmem]
      · by_cases h3 : g.maxMods ≤ (s.mods.length : Int)
        · have e1 : addModNamed s name = { s with modDraft := name } := by
            rw [hstep s hg2]
            simp [h1, hmem, h3]
          rw [e1, hstep { s with modDraft := name } hg]
          simp [h1, hmem, h3]
        · have e1 : addModNamed s name =
              { s with mods := s.mods ++ [name.trim], modDraft := "" } := by
            rw [hstep s hg2]
            simp [h1, hmem, h3]
          rw [e1, hstep { s with mods := s.mods ++ [name.trim], modDraft := "" } hg]
          have hmem2 : name.trim ∈ s.mods ++ [name.trim] := by simp
          simp [h1, hmem2]

/-- A state with one mod aboard gameC4, used to instantiate C5. -/
def cs5 : ConfigState :=
  { games := [gameC4], gameId := "h", players := some 2, locationId := "eu",
    mods := ["alpha"], modDraft := "", building := false }

/-- Witness for C5 at a concrete state: adding beta to [alpha]. -/
theorem C5_addMod_witness :
    currentGame cs5 = some gameC4 ∧
    (("beta".trim = "" → (addModNamed cs5 "beta").mods = cs5.mods) ∧
     (cs5.mods.contains "beta".trim = true → (addModNamed cs5 "beta").mods = cs5.mods) ∧
     (gameC4.maxMods ≤ (cs5.mods.length : Int) → (addModNamed cs5 "beta").mods = cs5.mods) ∧
     ("beta".trim ≠ "" → cs5.mods.contains "beta".trim = false →
       (cs5.mods.length : Int) < gameC4.maxMods →
       (addModNamed cs5 "beta").mods = cs5.mods ++ ["beta".trim]) ∧
     (addModNamed (addModNamed cs5 "beta") "beta").mods = (addModNamed cs5 "beta").mods) :=
  ⟨rfl, C5_addMod cs5 "beta" gameC4 rfl⟩

/-- The submit predicate as the claim words it: a game and a location
are selected, the player count is a number inside the selected game's
bounds, and the mod count satisfies the mod-support rule (empty mod list
when maxMods = 0, count within [minMods, maxMods] when mods are
supported). -/
def specCanSubmit (s : ConfigState) : Bool :=
  match currentGame s, s.players with
  | some g, some p =>
    decide (s.gameId ≠ "") && decide (s.locationId ≠ "") &&
    decide (g.minPlayers ≤ p) && decide (p ≤ g.maxPlayers) &&
    (if g.maxMods = 0 then decide (s.mods = [])
     else decide (g.minMods ≤ (s.mods.length : Int)) &&
       decide ((s.mods.length : Int) ≤ g.maxMods))
  | _, _ => false

/-- Claim C6: canSubmit holds exactly when a game and a location are
selected, the player count is a number inside the selected game's bounds,
and the mod count satisfies the mod-support rule of the selected game
(specCanSubmit transcribes the claim). -/
theorem C6_canSubmit (s : ConfigState)
    (hwf : ∀ g, currentGame s = some g → 0 ≤ g.maxMods) :
    canSubmit s = specCanSubmit s := by
  cases hc : currentGame s with
  | none => simp [canSubmit, specCanSubmit, hc]
  | some g =>
    have hm := hwf g hc
    have hms : modsSupported s = decide (0 < g.maxMods) := by
      simp [modsSupported, hc]
    cases hp : s.players with
    | none => simp [canSubmit, specCanSubmit, hc, hp]
    | some p =>
      by_cases h1 : s.gameId = ""
      · simp [canSubmit, specCanSubmit, hc, hp, h1]
      · by_cases h2 : s.locationId = ""
        · simp [canSubmit, specCanSubmit, hc, hp, h1, h2]
        · by_cases hplo : p < g.minPlayers
          · simp [canSubmit, specCanSubmit, hc, hp, h1, h2, hplo,
              (by omega : ¬g.minPlayers ≤ p)]
          · by_cases hphi : p > g.maxPlayers
            · simp [canSubmit, specCanSubmit, hc, hp, h1, h2, hplo, hphi,
                (by omega : g.minPlayers ≤ p), (by omega : ¬p ≤ g.maxPlayers)]
            · by_cases hz : g.maxMods = 0
              · cases hl : s.mods with
                | nil =>
                  simp [canSubmit, specCanSubmit, hc, hp, hms, h1, h2, hplo, hphi, hz, hl,
                    (by omega : g.minPlayers ≤ p), (by omega : p ≤ g.maxPlayers)]
                | cons a t =>
                  simp [canSubmit, specCanSubmit, hc, hp, hms, h1, h2, hplo, hphi, hz, hl,
                    (by omega : g.minPlayers ≤ p), (by omega : p ≤ g.maxPlayers)]
              · have hsup : 0 < g.maxMods := by omega
                by_cases hmin : (s.mods.length : Int) < g.minMods
                · simp [canSubmit, specCanSubmit, hc, hp, hms, h1, h2, hplo, hphi, hz, hsup,
                    hmin, (by omega : g.minPlayers ≤ p), (by omega : p ≤ g.maxPlayers),
                    (by omega : ¬g.minMods ≤ (s.mods.length : Int))]
                · by_cases hmax : (s.mods.length : Int) > g.maxMods
                  · simp [canSubmit, specCanSubmit, hc, hp, hms, h1, h2, hplo, hphi, hz,
                      hsup, hmin, hmax, (by omega : g.minPlayers ≤ p),
                      (by omega : p ≤ g.maxPlayers),
                      (by omega : g.minMods ≤ (s.mods.length : Int)),
                      (by omega : ¬(s.mods.length : Int) ≤ g.maxMods)]
                  · simp [canSubmit, specCanSubmit, hc, hp, hms, h1, h2, hplo, hphi, hz,
                      hsup, hmin, hmax, (by omega : g.minPlayers ≤ p),
                      (by omega : p ≤ g.maxPlayers),
                      (by omega : g.minMods ≤ (s.mods.length : Int)),
                      (by omega : (s.mods.length : Int) ≤ g.maxMods)]

/-- A fully valid default selection aboard gameC3, used to instantiate C6. -/
def cs6 : ConfigState :=
  { games := [gameC3], gameId := "g", players := some 2, locationId := "eu",
    mods := [], modDraft := "", building := false }

/-- Witness for C6: the default selection (minPlayers, no mods, location
chosen) satisfies both canSubmit and the claimed characterization. -/
theorem C6_canSubmit_witness :
    canSubmit cs6 = specCanSubmit cs6 ∧ canSubmit cs6 = true :=
  ⟨C6_canSubmit cs6 (by intro g h; injection h with h; rw [← h]; decide), rfl⟩

/-! ## Claim C7: validation order of buildAndRedirect -/

/-- The submit-validation rules in the order the claim lists them:
game selected, player count in range, location selected, mod count in
range.  A rule later in the list is only meaningful when the earlier
ones hold. -/
def specRuleHolds (s : ConfigState) : VField → Bool
  | .game => (currentGame s).isSome
  | .players =>
    match currentGame s, s.players with
    | some g, some p => decide (g.minPlayers ≤ p) && decide (p ≤ g.maxPlayers)
    | _, _ => false
  | .location => s.locationId != ""
  | .mods =>
    match currentGame s with
    | some g =>
      if g.maxMods > 0 then
        decide (g.minMods ≤ (s.mods.length : Int)) && decide ((s.mods.length : Int) ≤ g.maxMods)
      else s.mods.length == 0
    | none => false

/-- The fixed check order of the claim. -/
def checkOrder : List VField := [.game, .players, .location, .mods]

/-- The first violated field in the claimed check order. -/
def specFirstViolation (s : ConfigState) : Option VField :=
  checkOrder.find? (fun f => !(specRuleHolds s f))

/-- A game with bounds [0, 10] and no mod support, and a selection with
players = 0 (in range) but a non-empty mod list. -/
def cs7a : ConfigState :=
  { games := [{ id := "g", name := "G", minPlayers := 0, maxPlayers := 10,
                minMods := 0, maxMods := 0 }],
    gameId := "g", players := some 0, locationId := "eu",
    mods := ["m1"], modDraft := "", building := false }

/-- A selection violating only the mod-count rule (mods unsupported but
one mod listed), everything else valid. -/
def cs7b : ConfigState :=
  { games := [{ id := "g", name := "G", minPlayers := 1, maxPlayers := 10,
                minMods := 0, maxMods := 0 }],
    gameId := "g", players := some 5, locationId := "eu",
    mods := ["m1"], modDraft := "", building := false }

/-- Claim C7, counterexample: on cs7a the first violated rule in the
claimed order is the mod count, yet the resolver stops with the players
alert (the !players check rejects a player count of 0 even when it is in
range); on cs7b the only violated rule is again the mod count, yet the
resolver issues the checkout request (the mod checks are skipped entirely
when the game does not support mods). -/
theorem C7_validation_counterexample :
    (specFirstViolation cs7a = some .mods ∧
     buildAttempt cs7a = .validationError .players "Please select the number of players" ∧
     VField.players ≠ VField.mods) ∧
    (specFirstViolation cs7b = some .mods ∧
     buildAttempt cs7b =
       .request { handler := "buildlink", game := "G", players := "5",
                  location := "eu", mods := "1" }) := by
  exact ⟨⟨rfl, rfl, by decide⟩, rfl, rfl⟩

/-- The submit-validation rules as the resolver actually enforces them:
the player rule additionally demands a nonzero player count, and the
mod-count rule is vacuous when the game does not support mods. -/
def amendedRuleHolds (s : ConfigState) : VField → Bool
  | .game => (currentGame s).isSome
  | .players =>
    match currentGame s, s.players with
    | some g, some p =>
      (p != 0) && decide (g.minPlayers ≤ p) && decide (p ≤ g.maxPlayers)
    | _, _ => false
  | .location => s.locationId != ""
  | .mods =>
    match currentGame s with
    | some g =>
      !(g.maxMods > 0) ||
        (decide (g.minMods ≤ (s.mods.length : Int)) && decide ((s.mods.length : Int) ≤ g.maxMods))
    | none => false

/-- The first violated field in the claimed check order, amended rules. -/
def amendedFirstViolation (s : ConfigState) : Option VField :=
  checkOrder.find? (fun f => !(amendedRuleHolds s f))

/-- The field a build step blames, if any. -/
def stepField : BuildStep → Option VField
  | .validationError f _ => some f
  | .request _ => none

/-- Claim C7, amended: the resolver returns a validation error naming
exactly the first violated field of the amended rule list in the fixed
order game, players, location, mods (where the player rule also demands a
nonzero count and the mod rule only applies when mods are supported), and
it reaches the checkout request exactly when no rule is violated. -/
theorem C7_validation_amended (s : ConfigState) :
    stepField (buildAttempt s) = amendedFirstViolation s := by
  cases hc : currentGame s with
  | none =>
    simp [buildAttempt, amendedFirstViolation, checkOrder, List.find?, amendedRuleHolds,
      hc, stepField]
  | some g =>
    cases hp : s.players with
    | none =>
      simp [buildAttempt, amendedFirstViolation, checkOrder, List.find?, amendedRuleHolds,
        hc, hp, stepField]
    | some p =>
      by_cases hz : p = 0
      · have hbz : (p == 0) = true := by simp [hz]
        have hnz : (p != 0) = false := by simp [hz]
        simp [buildAttempt, amendedFirstViolation, checkOrder, List.find?, amendedRuleHolds,
          hc, hp, hbz, hnz, stepField]
      · have hbz : (p == 0) = false := by simp [hz]
        have hnz : (p != 0) = true := by simp [hz]
        by_cases hlo : p < g.minPlayers
        · simp [buildAttempt, amendedFirstViolation, checkOrder, List.find?, amendedRuleHolds,
            hc, hp, hbz, hnz, hlo, stepField,
            decide_eq_false (by omega : ¬g.minPlayers ≤ p)]
        · by_cases hhi : p > g.maxPlayers
          · simp [buildAttempt, amendedFirstViolation, checkOrder, List.find?, amendedRuleHolds,
              hc, hp, hbz, hnz, hlo, hhi, stepField,
              decide_eq_true (by omega : g.minPlayers ≤ p),
              decide_eq_false (by omega : ¬p ≤ g.maxPlayers)]
          · by_cases hloc : s.locationId = ""
            · have hble : (s.locationId == "") = true := by simp [hloc]
              have hbne : (s.locationId != "") = false := by simp [hloc]
              simp [buildAttempt, amendedFirstViolation, checkOrder, List.find?,
                amendedRuleHolds, hc, hp, hbz, hnz, hlo, hhi, hble, hbne, stepField,
                decide_eq_true (by omega : g.minPlayers ≤ p),
                decide_eq_true (by omega : p ≤ g.maxPlayers)]
            · have hble : (s.locationId == "") = false := by simp [hloc]
              have hbne : (s.locationId != "") = true := by simp [hloc]
              by_cases hsup : 0 < g.maxMods
              · by_cases hmin : (s.mods.length : Int) < g.minMods
                · simp [buildAttempt, amendedFirstViolation, checkOrder, List.find?,
                    amendedRuleHolds, hc, hp, hbz, hnz, hlo, hhi, hble, hbne, hsup, hmin,
                    stepField, decide_eq_true (by omega : g.minPlayers ≤ p),
                    decide_eq_true (by omega : p ≤ g.maxPlayers),
                    decide_eq_true hsup,
                    decide_eq_false (by omega : ¬g.minMods ≤ (s.mods.length : Int))]
                · by_cases hmax : (s.mods.length : Int) > g.maxMods
                  · simp [buildAttempt, amendedFirstViolation, checkOrder, List.find?,
                      amendedRuleHolds, hc, hp, hbz, hnz, hlo, hhi, hble, hbne, hsup, hmin,
                      hmax, stepField, decide_eq_true (by omega : g.minPlayers ≤ p),
                      decide_eq_true (by omega : p ≤ g.maxPlayers),
                      decide_eq_true hsup,
                      decide_eq_true (by omega : g.minMods ≤ (s.mods.length : Int)),
                      decide_eq_false (by omega : ¬(s.mods.length : Int) ≤ g.maxMods)]
                  · simp [buildAttempt, amendedFirstViolation, checkOrder, List.find?,
                      amendedRuleHolds, hc, hp, hbz, hnz, hlo, hhi, hble, hbne, hsup, hmin,
                      hmax, stepField, decide_eq_true (by omega : g.minPlayers ≤ p),
                      decide_eq_true (by omega : p ≤ g.maxPlayers),
                      decide_eq_true hsup,
                      decide_eq_true (by omega : g.minMods ≤ (s.mods.length : Int)),
                      decide_eq_true (by omega : (s.mods.length : Int) ≤ g.maxMods)]
              · simp [buildAttempt, amendedFirstViolation, checkOrder, List.find?,
                  amendedRuleHolds, hc, hp, hbz, hnz, hlo, hhi, hble, hbne, hsup, stepField,
                  decide_eq_true (by omega : g.minPlayers ≤ p),
                  decide_eq_true (by omega : p ≤ g.maxPlayers),
                  decide_eq_false hsup]

/-! ## Claim C8: checkout query contents -/

/-- Claim C8: whenever the resolver issues the checkout request, the
query carries exactly the handler, the game display name, the player
count, the location identifier and the mod count; replacing the mod list
by any other list of the same length yields the same query, so the mod
names themselves are never sent. -/
theorem C8_checkout_query (s : ConfigState) (g : GameInfo) (p : Int) (q : CheckoutQuery)
    (other : List String)
    (hg : currentGame s = some g) (hp : s.players = some p)
    (hq : buildAttempt s = .request q) (hlen : other.length = s.mods.length) :
    q = { handler := "buildlink", game := g.name, players := toString p,
          location := s.locationId, mods := toString s.mods.length } ∧
    buildAttempt { s with mods := other } = .request q := by
  have hc2 : currentGame { s with mods := other } = some g := hg
  have hc3 : currentGame { s with players := some p, mods := other } = some g := hg
  simp only [buildAttempt, hg, hp] at hq
  split_ifs at hq with hb1 hb2 hb3 hb4 hb5
  injection hq with hqq
  subst hqq
  refine ⟨rfl, ?_⟩
  simp only [buildAttempt, hc2, hc3,
    show ({ s with mods := other } : ConfigState).players = s.players from rfl,
    show ({ s with mods := other } : ConfigState).locationId = s.locationId from rfl,
    show ({ s with mods := other } : ConfigState).mods = other from rfl, hp, hlen]
  rw [if_neg hb1, if_neg hb2, if_neg hb3, if_neg hb4, if_neg hb5]

/-- The C8 scenario state: mods [a, b, c] aboard gameC4. -/
def cs8 : ConfigState :=
  { games := [gameC4], gameId := "h", players := some 4, locationId := "us-east",
    mods := ["a", "b", "c"], modDraft := "", building := false }

/-- Witness for C8: with mods [a, b, c] the outgoing query carries
mods=3, and any other three mod names produce the same query. -/
theorem C8_checkout_query_witness :
    currentGame cs8 = some gameC4 ∧ cs8.players = some 4 ∧
    buildAttempt cs8 = .request { handler := "buildlink", game := "H", players := "4",
                                  location := "us-east", mods := "3" } ∧
    (["x", "y", "z"] : List String).length = cs8.mods.length ∧
    ({ handler := "buildlink", game := "H", players := "4",
       location := "us-east", mods := "3" } : CheckoutQuery) =
      { handler := "buildlink", game := gameC4.name, players := toString (4 : Int),
        mods := toString cs8.mods.length, location := cs8.locationId } ∧
    buildAttempt { cs8 with mods := ["x", "y", "z"] } =
      .request { handler := "buildlink", game := "H", players := "4",
                 location := "us-east", mods := "3" } := by
  refine ⟨rfl, rfl, rfl, rfl, ?_, ?_⟩
  · exact (C8_checkout_query cs8 gameC4 4 _ ["x", "y", "z"] rfl rfl rfl rfl).1
  · exact (C8_checkout_query cs8 gameC4 4 _ ["x", "y", "z"] rfl rfl rfl rfl).2

/-! ## Claim C9: busy flag and re-submission -/

/-- A valid selection with no request outstanding. -/
def cs9 : ConfigState :=
  { games := [{ id := "g", name := "G", minPlayers := 1, maxPlayers := 10,
                minMods := 0, maxMods := 0 }],
    gameId := "g", players := some 5, locationId := "eu",
    mods := [], modDraft := "", building := false }

/-- The request cs9 produces. -/
def q9 : CheckoutQuery :=
  { handler := "buildlink", game := "G", players := "5", location := "eu", mods := "0" }

/-- Claim C9, counterexample: starting a checkout from cs9 issues the
request and sets the busy flag, yet invoking the checkout action again in
the resulting busy state issues a second identical request: nothing
guards re-submission on the busy flag. -/
theorem C9_busy_counterexample :
    (startCheckout cs9).2 = some q9 ∧
    (startCheckout cs9).1.building = true ∧
    (startCheckout (startCheckout cs9).1).2 = some q9 :=
  ⟨rfl, rfl, rfl⟩

/-- Claim C9, amended: the busy flag is set while a checkout request is
outstanding (it becomes true exactly when a request is issued, and is
left alone on validation failure), but it does not disable re-submission:
whether the checkout action issues a request is entirely independent of
the busy flag. -/
theorem C9_busy_amended (s : ConfigState) (b : Bool) :
    (startCheckout { s with building := b }).2 = (startCheckout s).2 ∧
    (startCheckout s).1.building = ((startCheckout s).2.isSome || s.building) := by
  have hb : buildAttempt { s with building := b } = buildAttempt s := rfl
  constructor
  · cases hstep : buildAttempt s <;>
      simp [startCheckout, hb, hstep]
  · cases hstep : buildAttempt s <;>
      simp [startCheckout, hstep]

/-! ## Claim C10: fetchGameConfig (GamesGrid utility module) -/

/-- The data record built by transformGameConfig: exactly the six
properties copied out of the matched game (each may be any JS value,
including undefined when the game record lacks the property). -/
structure ConfigData where
  name : Json
  minPlayers : Json
  maxPlayers : Json
  minMods : Json
  maxMods : Json
  serverConfig : Json

/-- The result shape of fetchGameConfig: {ok: bool, data: ... | null}. -/
structure GameConfigResult where
  ok : Bool
  data : Option ConfigData

/-- transformGameConfig: build {ok: true, data: {name, minPlayers,
maxPlayers, minMods, maxMods, serverConfig}} by reading exactly those six
properties of the given record; the reads throw only when the record is
null or undefined (and then they all do, so one simultaneous match is
faithful to the first read throwing). -/
def transformGameConfig (gameData : Json) : Except JsError GameConfigResult :=
  match gameData.getE "name", gameData.getE "minPlayers", gameData.getE "maxPlayers",
      gameData.getE "minMods", gameData.getE "maxMods", gameData.getE "serverConfig" with
  | .ok n, .ok mnp, .ok mxp, .ok mnm, .ok mxm, .ok sc =>
    .ok { ok := true,
          data := some { name := n, minPlayers := mnp, maxPlayers := mxp,
                         minMods := mnm, maxMods := mxm, serverConfig := sc } }
  | _, _, _, _, _, _ =>
    .error (.typeError "Cannot read properties of null or undefined")

/-- gamesData.find(g => g.name === gameName): the strict equality matches
only a string name equal to gameName, and the property read inside the
callback can itself throw. -/
def findGameE (gameName : String) : List Json → Except JsError (Option Json)
  | [] => .ok none
  | g :: rest =>
    match g.getE "name" with
    | .error e => .error e
    | .ok n =>
      match n with
      | .str s => if s == gameName then .ok (some g) else findGameE gameName rest
      | _ => findGameE gameName rest

/-- The body of the try block of fetchGameConfig: fetch and parse (an
outcome of none models a rejected fetch or a JSON parse failure; note the
code never checks response.ok here), unwrap the ok/data envelope, select
the requested game (find by name when the payload is an array, the whole
payload otherwise), throw when no truthy game remains, then transform. -/
def fetchGameConfigInner (gameName : String) (outcome : Option Json) :
    Except JsError GameConfigResult :=
  match outcome with
  | none => .error (.error "fetch failed")
  | some result =>
    match result.getE "ok" with
    | .error e => .error e
    | .ok okField =>
      match (if okField.truthy then result.getE "data" else .ok result) with
      | .error e => .error e
      | .ok gamesData =>
        match (match gamesData with
               | .arr xs => findGameE gameName xs
               | _ => .ok (some gamesData)) with
        | .error e => .error e
        | .ok gameOpt =>
          match gameOpt with
          | none => .error (.error ("Game " ++ gameName ++ " not found"))
          | some game =>
            if game.truthy = false then
              .error (.error ("Game " ++ gameName ++ " not found"))
            else transformGameConfig game

/-- fetchGameConfig: the catch-all wrapper; any throw inside the try
block yields {ok: false, data: null}. -/
def fetchGameConfig (gameName : String) (outcome : Option Json) : GameConfigResult :=
  match fetchGameConfigInner gameName outcome with
  | .ok r => r
  | .error _ => { ok := false, data := none }

/-- A game record of the C10 witness payload. -/
def gameJson10 : Json :=
  .obj [("name", .str "Rust"), ("minPlayers", .num 1), ("maxPlayers", .num 8),
        ("minMods", .num 0), ("maxMods", .num 4),
        ("serverConfig", .obj [("minRam", .num 2)])]

/-- A wrapped catalog response carrying that one game. -/
def resp10 : Json := .obj [("ok", .bool true), ("data", .arr [gameJson10])]

/-- A wrapped catalog response with an empty games array. -/
def respNF10 : Json := .obj [("ok", .bool true), ("data", .arr [])]

/-- Claim C10: fetchGameConfig never throws: for every requested name and
fetch outcome it returns either the failure value {ok: false, data: null}
or a success {ok: true, data: ...} whose data is exactly the six
properties of the matched game record; a transport or parse failure
(outcome none) yields the failure value, a catalog without the requested
game yields the failure value, and a catalog carrying the game yields the
transformed record. -/
theorem C10_fetchGameConfig (gameName : String) (outcome : Option Json) :
    (fetchGameConfig gameName outcome = { ok := false, data := none } ∨
     ∃ g : Json, g.truthy = true ∧
       fetchGameConfigInner gameName outcome = transformGameConfig g ∧
       fetchGameConfig gameName outcome =
         { ok := true,
           data := some { name := jsGet g "name", minPlayers := jsGet g "minPlayers",
                          maxPlayers := jsGet g "maxPlayers", minMods := jsGet g "minMods",
                          maxMods := jsGet g "maxMods",
                          serverConfig := jsGet g "serverConfig" } }) ∧
    fetchGameConfig gameName none = { ok := false, data := none } ∧
    fetchGameConfig "Rust" (some respNF10) = { ok := false, data := none } ∧
    fetchGameConfig "Rust" (some resp10) =
      { ok := true,
        data := some { name := .str "Rust", minPlayers := .num 1, maxPlayers := .num 8,
                       minMods := .num 0, maxMods := .num 4,
                       serverConfig := .obj [("minRam", .num 2)] } } := by
  refine ⟨?_, rfl, rfl, rfl⟩
  cases outcome with
  | none => left; rfl
  | some result =>
    cases hnn : result.getE "ok" with
    | error e => left; simp [fetchGameConfig, fetchGameConfigInner, hnn]
    | ok okField =>
      cases hdd : (if okField.truthy then result.getE "data" else .ok result) with
      | error e => left; simp [fetchGameConfig, fetchGameConfigInner, hnn, hdd]
      | ok gamesData =>
        cases hff : (match gamesData with
                     | .arr xs => findGameE gameName xs
                     | _ => .ok (some gamesData)) with
        | error e => left; simp [fetchGameConfig, fetchGameConfigInner, hnn, hdd, hff]
        | ok gameOpt =>
          cases gameOpt with
          | none => left; simp [fetchGameConfig, fetchGameConfigInner, hnn, hdd, hff]
          | some g =>
            by_cases ht : g.truthy = true
            · right
              have h0 : g ≠ .null := by
                intro h
                rw [h] at ht
                exact absurd ht (by decide)
              have h1 : g ≠ .undefined := by
                intro h
                rw [h] at ht
                exact absurd ht (by decide)
              have htr : transformGameConfig g =
                  .ok { ok := true,
                        data := some { name := jsGet g "name", minPlayers := jsGet g "minPlayers",
                                       maxPlayers := jsGet g "maxPlayers",
                                       minMods := jsGet g "minMods",
                                       maxMods := jsGet g "maxMods",
                                       serverConfig := jsGet g "serverConfig" } } := by
                simp [transformGameConfig, getE_not_null g h0 h1]
              refine ⟨g, ht, ?_, ?_⟩
              · simp [fetchGameConfigInner, hnn, hdd, hff, ht]
              · simp [fetchGameConfig, fetchGameConfigInner, hnn, hdd, hff, ht, htr]
            · left
              simp only [Bool.not_eq_true] at ht
              simp [fetchGameConfig, fetchGameConfigInner, hnn, hdd, hff, ht]

end Aleforge
